import Mathlib

/-!
Verification of the Android file chooser module (`plyer/platforms/android/filechooser.py`).

This file shallow-embeds the pure decision logic of `AndroidFileChooser`:
the activity-result dispatch (`_on_activity_result`), the per-item selection
loop, the scoped-storage cache branch, token generation (`__init__`), the
downloads fallback chain (`_handle_downloads_documents`), the generic
content-scheme retry logic of `_resolve_uri`, the external-documents root
selection (`_handle_external_documents`) and the cursor parser
(`_parse_content`).

Provider calls (content-resolver queries) are modelled by oracles giving each
query's outcome: a provider-level `JavaException`, or a returned value (which
may be Python `None` or the empty string).  Filesystem effects (mkdir /
remove / stream copy) are not observable by the properties proved here; the
copy step is modelled by a flag saying whether it raises.
-/

namespace AndroidFileChooser

/-- Python truthiness of an optional string: `None` and `""` are falsy. -/
def truthy : Option String → Bool
  | none => false
  | some s => s != ""

/-- `os.path.join` restricted to two components (POSIX semantics: an
absolute second component replaces the first; otherwise concatenate with
a single `/` separator). -/
def pjoin (a b : String) : String :=
  if b.data.head? = some '/' then b
  else if a = "" then b
  else if a.data.getLast? = some '/' then ⟨a.data ++ b.data⟩
  else ⟨a.data ++ '/' :: b.data⟩

/-- Split a character list at every occurrence of `c` (Python `str.split`). -/
def splitCharsAux (c : Char) : List Char → List Char → List (List Char)
  | [], acc => [acc.reverse]
  | x :: xs, acc =>
      if x = c then acc.reverse :: splitCharsAux c xs []
      else splitCharsAux c xs (x :: acc)

/-- Python `s.split(c)` for a one-character separator. -/
def splitStr (c : Char) (s : String) : List String :=
  (splitCharsAux c s.data []).map (fun l => ⟨l⟩)

/-- Python `os.path.basename`: everything after the last `/`. -/
def basenameStr (s : String) : String :=
  (splitStr '/' s).getLastD ""

/-- Whether `needle` is a leading segment of `hay`. -/
def charsHasPre : List Char → List Char → Bool
  | [], _ => true
  | _ :: _, [] => false
  | a :: as, b :: bs => a = b && charsHasPre as bs

/-- Python `needle in hay` substring containment on character lists. -/
def charsContains : List Char → List Char → Bool
  | hay, needle =>
      charsHasPre needle hay ||
        match hay with
        | [] => false
        | _ :: t => charsContains t needle

/-- Python `needle in hay` for strings. -/
def strContains (hay needle : String) : Bool :=
  charsContains hay.data needle.data

end AndroidFileChooser

namespace AndroidFileChooser

/-- Outcome of one `_parse_content` call as seen by a caller: a provider
`JavaException` (`err`), or a returned value — `ok none` models Python
`None`, `ok (some s)` a returned string (possibly empty). -/
inductive QueryOutcome where
  | err
  | ok (r : Option String)
deriving DecidableEq

deriving instance DecidableEq for Except

/-- Outcome of `self._resolve_uri(...)` on one selected item: an exception
(`Except.error`), or the returned value — `none` for Python `None`,
`some s` for a string (possibly empty). -/
abbrev ROutcome := Except Unit (Option String)

/-- One element of the Python list `selection` built by
`_on_activity_result`.  The multi-item loop appends
`self._resolve_uri(...) or []`, so a falsy resolution leaves the empty
list `[]` in the slot (`emptyList`); the single-item fallback branch
appends the raw resolution result, so there `None` (`null`) can appear. -/
inductive SelEntry where
  | str (s : String)
  | emptyList
  | null
deriving DecidableEq

/-- `ele = self._resolve_uri(...) or []` — the value appended by the
multi-item loop for a resolution that returned `r`. -/
def entryOf : Option String → SelEntry
  | none => SelEntry.emptyList
  | some s => if s = "" then SelEntry.emptyList else SelEntry.str s

/-- `selection = [self._resolve_uri(data.getData()), ]` — the fallback
branch taken when the multi-item loop raises; the resolver's own
exception propagates out of the handler. -/
def fallbackSel : ROutcome → Except Unit (List SelEntry)
  | Except.error _ => Except.error ()
  | Except.ok (some s) => Except.ok [SelEntry.str s]
  | Except.ok none => Except.ok [SelEntry.null]

/-- Result of running the multi-item loop body over the clip items:
either the accumulated entries, or `aborted` when some item's resolution
raised (the Python `except Exception:` branch fires). -/
inductive MultiRes where
  | items (l : List SelEntry)
  | aborted
deriving DecidableEq

/-- The `for count in range(...getItemCount())` loop: appends
`entryOf` of each successful resolution, in order; the first raising
item aborts the loop. -/
def buildMultiAux : List ROutcome → MultiRes
  | [] => MultiRes.items []
  | Except.error _ :: _ => MultiRes.aborted
  | Except.ok r :: os =>
      match buildMultiAux os with
      | MultiRes.items rest => MultiRes.items (entryOf r :: rest)
      | MultiRes.aborted => MultiRes.aborted

/-- The whole `try: for ... except Exception: selection = [...]` block:
on an abort, the partial selection is discarded and replaced by the
single-element fallback resolution of `data.getData()`. -/
def buildMulti (outs : List ROutcome) (fb : ROutcome) : Except Unit (List SelEntry) :=
  match buildMultiAux outs with
  | MultiRes.items l => Except.ok l
  | MultiRes.aborted => fallbackSel fb

/-- One delivery on the global `on_activity_result` channel, with the
oracle outcomes of the resolutions it would trigger.  `clip = none`
models `data.getClipData()` being `None` (its use raises, sending the
handler to the fallback branch); `clip = some outs` gives the per-item
resolution outcomes.  `dataUri` is the outcome of resolving
`data.getData()`.  `copyFails` says whether the scoped-storage stream
copy (`openInputStream`/`FileUtils.copy`) raises. -/
structure ResultEvent where
  requestCode : Nat
  resultOk : Bool
  hasData : Bool
  clip : Option (List ROutcome)
  dataUri : ROutcome
  copyFails : Bool

/-- The `selection` list built by `_on_activity_result` for a matching
successful delivery (an `Except.error` means an exception escaped the
handler before `self.selection` was written). -/
def buildSelection (ev : ResultEvent) : Except Unit (List SelEntry) :=
  match ev.clip with
  | some outs => buildMulti outs ev.dataUri
  | none => fallbackSel ev.dataUri

/-- The mutable attributes of an `AndroidFileChooser` instance relevant
to dispatch: the two random request codes and `self.selection`. -/
structure ChooserState where
  selectCode : Nat
  saveCode : Nat
  selection : Option (List SelEntry)
deriving DecidableEq

/-- `AndroidFileChooser.__init__`: both request codes are independent
`randint(123456, 654321)` draws `r1`, `r2`; `self.selection = None`.
No check relates the draws to each other or to other live instances. -/
def initChooser (r1 r2 : Nat) : ChooserState :=
  { selectCode := r1, saveCode := r2, selection := none }

/-- `os.path.basename(selection[0])` on a selection entry: raises
`TypeError` unless the entry is a string. -/
def entryBasename : SelEntry → Except Unit String
  | SelEntry.str s => Except.ok (basenameStr s)
  | _ => Except.error ()

/-- How one `_on_activity_result` call ends: an early `return`
(`ret`), an uncaught exception propagating out of the handler
(`raised`), or an invocation of `self._handle_selection` with a payload
(`callback`). -/
inductive HandlerOutcome where
  | ret
  | raised
  | callback (payload : List SelEntry)
deriving DecidableEq

/-- `AndroidFileChooser._on_activity_result(request_code, result_code,
data)`: drops the delivery if `data is None`, if the result code is not
`RESULT_OK`, or if `request_code` is not this instance's `select_code`;
otherwise builds `selection`, stores it in `self.selection`, and — when
`api_version > 28` — takes `basename(selection[0])` (raising on a
non-string first entry or an empty selection), builds the cache path
`cache_dir/FromSharedStorage/<basename>`, copies the bytes, and invokes
the callback with the one-element list `[cache_file]`; for
`api_version <= 28` it invokes the callback with `selection` itself. -/
def on_activity_result (api : Nat) (cacheDir : String) (st : ChooserState)
    (ev : ResultEvent) : ChooserState × HandlerOutcome :=
  if ev.hasData = true then
    if ev.resultOk = true then
      if ev.requestCode = st.selectCode then
        match buildSelection ev with
        | Except.error _ => (st, HandlerOutcome.raised)
        | Except.ok sel =>
            let st' := { st with selection := some sel }
            if 28 < api then
              match sel with
              | [] => (st', HandlerOutcome.raised)
              | e :: _ =>
                  match entryBasename e with
                  | Except.error _ => (st', HandlerOutcome.raised)
                  | Except.ok filename =>
                      if ev.copyFails then (st', HandlerOutcome.raised)
                      else
                        (st', HandlerOutcome.callback
                          [SelEntry.str
                            (pjoin (pjoin cacheDir "FromSharedStorage") filename)])
            else (st', HandlerOutcome.callback sel)
      else (st, HandlerOutcome.ret)
    else (st, HandlerOutcome.ret)
  else (st, HandlerOutcome.ret)

/-- Whether a handler outcome invoked the callback. -/
def isCallbackOutcome : HandlerOutcome → Bool
  | HandlerOutcome.callback _ => true
  | _ => false

/-- Deliver a sequence of results to one chooser instance, threading the
state and counting callback invocations. -/
def runEvents (api : Nat) (cacheDir : String) :
    ChooserState → List ResultEvent → ChooserState × Nat
  | st, [] => (st, 0)
  | st, ev :: evs =>
      let r := on_activity_result api cacheDir st ev
      let rest := runEvents api cacheDir r.1 evs
      (rest.1, (if isCallbackOutcome r.2 then 1 else 0) + rest.2)

/-- One pass of the candidate loops in `_handle_downloads_documents`:
`path` carries the loop variable across iterations; a `JavaException`
(`QueryOutcome.err`) is caught and leaves `path` unchanged, a returned
value overwrites it, and `if path: break` stops at the first truthy
value.  The final `path` (possibly falsy) is returned. -/
def tryLoop : List QueryOutcome → Option String → Option String
  | [], path => path
  | o :: os, path =>
      let path' := match o with
        | QueryOutcome.err => path
        | QueryOutcome.ok r => r
      if truthy path' then path' else tryLoop os path'

/-- Oracle for `_handle_downloads_documents`: the public downloads
directory, the outcome of the stage-0 `_display_name` parse, and the
per-candidate outcomes of the `['_data']` queries (`q1`) and of the
`index_all=True` queries (`q2`) against the three known download
content roots. -/
structure DownloadsEnv where
  downloadDir : String
  q0 : QueryOutcome
  q1 : List QueryOutcome
  q2 : List QueryOutcome

/-- `AndroidFileChooser._handle_downloads_documents(uri)`: first the
`_display_name` lookup joined under the public downloads root (any
exception in that stage — including the `TypeError` from
`join(download_dir, None)` when the parse returned `None` — is caught);
then the three candidate roots queried for `_data` with `JavaException`s
caught per candidate; then, if `path` is still falsy, the same three
candidates in aggregate-all mode; the final `path` is returned. -/
def handle_downloads_documents (env : DownloadsEnv) : Option String :=
  match env.q0 with
  | QueryOutcome.ok (some p) => some (pjoin env.downloadDir p)
  | _ =>
      let p1 := tryLoop env.q1 none
      if truthy p1 then p1 else tryLoop env.q2 p1

/-- The three query shapes a generic content-scheme resolution can
issue: the `['_data']` query with the bare `selection_args`, its retry
with the argument wrapped in a one-element list, and the
`['_display_name']` query against the original unmodified uri. -/
inductive QueryCall where
  | dataUnwrapped
  | dataWrapped
  | displayOriginal
deriving DecidableEq

/-- Oracle for the content-scheme branch of `_resolve_uri`: outcomes of
the three possible `_parse_content` calls. -/
structure ContentEnv where
  unwrapped : QueryOutcome
  wrapped : QueryOutcome
  display : QueryOutcome

/-- `QueryOutcome.err` test. -/
def isErr : QueryOutcome → Bool
  | QueryOutcome.err => true
  | _ => false

/-- The value of `path` after the `try/except` pair of the
content-scheme branch (before the `finally`), when neither query left
an exception pending: truthy iff that value is a non-empty string. -/
def dataResultTruthy (env : ContentEnv) : Bool :=
  match env.unwrapped with
  | QueryOutcome.ok p => truthy p
  | QueryOutcome.err =>
      match env.wrapped with
      | QueryOutcome.ok p => truthy p
      | QueryOutcome.err => false

/-- The content-scheme branch of `_resolve_uri` (`uri_scheme ==
'content' and not downloads`), for a locator whose authority matched no
known provider: `try` the `['_data']` query with the bare args;
`except JavaException` retry with the args wrapped in a list;
`finally`, if `path` is falsy, query `['_display_name']` against the
original uri.  Python's `finally` semantics apply: when the wrapped
retry raised, the display query still runs but the pending exception
then propagates, discarding its result.  Returns the result (or `err`
for a propagating exception) together with the ordered trace of
queries issued. -/
def resolve_uri_content (env : ContentEnv) :
    Except Unit (Option String) × List QueryCall :=
  match env.unwrapped with
  | QueryOutcome.ok p =>
      if truthy p then (Except.ok p, [QueryCall.dataUnwrapped])
      else
        match env.display with
        | QueryOutcome.ok d =>
            (Except.ok d, [QueryCall.dataUnwrapped, QueryCall.displayOriginal])
        | QueryOutcome.err =>
            (Except.error (), [QueryCall.dataUnwrapped, QueryCall.displayOriginal])
  | QueryOutcome.err =>
      match env.wrapped with
      | QueryOutcome.ok p =>
          if truthy p then (Except.ok p, [QueryCall.dataUnwrapped, QueryCall.dataWrapped])
          else
            match env.display with
            | QueryOutcome.ok d =>
                (Except.ok d,
                 [QueryCall.dataUnwrapped, QueryCall.dataWrapped, QueryCall.displayOriginal])
            | QueryOutcome.err =>
                (Except.error (),
                 [QueryCall.dataUnwrapped, QueryCall.dataWrapped, QueryCall.displayOriginal])
      | QueryOutcome.err =>
          (Except.error (),
           [QueryCall.dataUnwrapped, QueryCall.dataWrapped, QueryCall.displayOriginal])

/-- Abstract cursor as `_parse_content` reads it: the column index of
`projection[0]` (`-1` when absent), the `getString` value of the first
row when `moveToFirst()` succeeds, and — for `index_all` mode — the
`getString` values of every row and column in iteration order.  Every
cell read by `cursor.getString` is nullable: a NULL column value comes
back as Python `None` (`none`), hence `Option String` cells in both
branches. -/
structure Cursor where
  colIdx : Int
  firstVal : Option (Option String)
  rows : List (List (Option String))

/-- The `index_all` accumulation: `result.append(cursor.getString(idx))`
for every column of every row, in order — nullable cells included. -/
def collectAllCols : List (List (Option String)) → List (Option String)
  | [] => []
  | r :: rs => r ++ collectAllCols rs

/-- Python `'/'.join(items)` over the accumulated cells: raises
`TypeError` (`Except.error`) as soon as the list holds a `None`,
otherwise keeps the strings for joining. -/
def joinCells : List (Option String) → Except Unit (List String)
  | [] => Except.ok []
  | none :: _ => Except.error ()
  | some s :: rest =>
      match joinCells rest with
      | Except.ok l => Except.ok (s :: l)
      | Except.error u => Except.error u

/-- `AndroidFileChooser._parse_content(...)`: with `index_all` false,
returns the first row's requested column when the column exists and a
row exists (`None` otherwise); with `index_all` true, appends every
column value of every row in order and returns them `/`-joined — the
join raises `TypeError` when some collected cell is `None`, and gives
`''` for an empty result set. -/
def parse_content (indexAll : Bool) (cur : Cursor) : Except Unit (Option String) :=
  if indexAll = false then
    Except.ok
      (if cur.colIdx ≠ -1 then
        match cur.firstVal with
        | some v => v
        | none => none
      else none)
  else
    match joinCells (collectAllCols cur.rows) with
    | Except.ok l => Except.ok (some (String.intercalate "/" l))
    | Except.error _ => Except.error ()

/-- Storage environment of `_handle_external_documents`: the primary
external storage root, the SD-card root (`None` when absent), and
`Environment.DIRECTORY_DOCUMENTS`. -/
structure ExtEnv where
  primaryStorage : String
  sdcardStorage : Option String
  documentsDir : String

/-- `AndroidFileChooser._handle_external_documents(uri)`: splits the
document id at `:` into exactly a type and a name (anything else raises
the unpacking `ValueError`), picks the root — `primary` → primary root,
`home` → primary root + documents directory, a type occurring as a
substring of a present, non-empty SD-card root → that root, anything
else → primary root — and returns `join(root, name)`.  No provider
query is made. -/
def handle_external_documents (env : ExtEnv) (fileId : String) : Except Unit String :=
  match splitStr ':' fileId with
  | [fileType, fileName] =>
      let dir :=
        if fileType = "primary" then env.primaryStorage
        else if fileType = "home" then pjoin env.primaryStorage env.documentsDir
        else if truthy env.sdcardStorage &&
            strContains (env.sdcardStorage.getD "") fileType then
          env.sdcardStorage.getD ""
        else env.primaryStorage
      Except.ok (pjoin dir fileName)
  | _ => Except.error ()

end AndroidFileChooser

namespace AndroidFileChooser

/-- C5 (counterexample): both `randint(123456, 654321)` draws are in
range, yet two chooser instances can draw the same `select_code`, and a
single instance can draw `select_code = save_code` — tokens of
concurrently outstanding operations need not differ. -/
theorem token_collision_cex :
    123456 ≤ 123456 ∧ 123456 ≤ 654321 ∧
    (initChooser 123456 300000).selectCode = (initChooser 123456 400000).selectCode ∧
    (initChooser 123456 123456).selectCode = (initChooser 123456 123456).saveCode := by
  decide

/-- C5 (amended): `__init__` stores the two random draws as the tokens
unchanged, with no uniqueness check, so the tokens of two live
operations are distinct exactly when the random draws happen to
differ. -/
theorem token_draws_amended (r1 r2 : Nat) :
    (initChooser r1 r2).selectCode = r1 ∧ (initChooser r1 r2).saveCode = r2 ∧
    ((initChooser r1 r2).selectCode ≠ (initChooser r1 r2).saveCode ↔ r1 ≠ r2) := by
  exact ⟨rfl, rfl, Iff.rfl⟩

/-- C8 (counterexample): in aggregate-all mode an entirely empty result
set yields the empty string, not null. -/
theorem aggregate_all_empty_cex :
    parse_content true ⟨-1, none, []⟩ = Except.ok (some "") ∧
    parse_content true ⟨-1, none, []⟩ ≠ Except.ok none := by decide

/-- The `index_all` accumulation collects exactly the concatenation of
all rows in order. -/
theorem collectAllCols_eq_flatten (l : List (List (Option String))) :
    collectAllCols l = l.flatten := by
  induction l with
  | nil => rfl
  | cons r rs ih => simp [collectAllCols, ih]

/-- Joining cells that are all non-null keeps exactly those strings. -/
theorem joinCells_map_some (l : List String) :
    joinCells (l.map some) = Except.ok l := by
  induction l with
  | nil => rfl
  | cons s rest ih => simp [joinCells, ih]

/-- A `None` cell anywhere makes the join raise, whatever surrounds it. -/
theorem joinCells_append_none (xs ys : List (Option String)) :
    joinCells (xs ++ none :: ys) = Except.error () := by
  induction xs with
  | nil => rfl
  | cons x rest ih => cases x <;> simp [joinCells, ih]

/-- The accumulation distributes over appended row blocks. -/
theorem collectAllCols_append (a b : List (List (Option String))) :
    collectAllCols (a ++ b) = collectAllCols a ++ collectAllCols b := by
  induction a with
  | nil => rfl
  | cons r rs ih => simp [collectAllCols, ih]

/-- Accumulating rows of all non-null cells gives the flattened cells,
each wrapped `some`. -/
theorem collectAllCols_all_some (rows : List (List String)) :
    collectAllCols (rows.map (fun r => r.map some)) = rows.flatten.map some := by
  induction rows with
  | nil => rfl
  | cons r rs ih => simp [collectAllCols, ih]

/-- Unfolding of the aggregate-all branch of `_parse_content`. -/
theorem parse_content_all (cur : Cursor) :
    parse_content true cur =
      match joinCells (collectAllCols cur.rows) with
      | Except.ok l => Except.ok (some (String.intercalate "/" l))
      | Except.error _ => Except.error () := rfl

/-- C8 (amended): in aggregate-all mode `_parse_content` appends every
column value of every returned row, rows in order and columns in order
within each row; when all collected values are non-null it returns
their `/`-join (the empty string for an empty result set, never null);
when some collected value is null the `'/'.join` raises `TypeError`
instead of returning. -/
theorem aggregate_all_join_amended :
    (∀ (idx : Int) (fv : Option (Option String)) (rows : List (List String)),
      parse_content true ⟨idx, fv, rows.map (fun r => r.map some)⟩ =
        Except.ok (some (String.intercalate "/" rows.flatten))) ∧
    (∀ (idx : Int) (fv : Option (Option String)) (rows1 : List (List String))
        (pre : List String) (post : List (Option String))
        (rows2 : List (List (Option String))),
      parse_content true
          ⟨idx, fv, rows1.map (fun r => r.map some) ++ (pre.map some ++ none :: post) :: rows2⟩ =
        Except.error ()) ∧
    (∀ cur : Cursor, parse_content true cur ≠ Except.ok none) ∧
    (∀ (idx : Int) (fv : Option (Option String)),
      parse_content true ⟨idx, fv, []⟩ = Except.ok (some "")) := by
  refine ⟨fun idx fv rows => ?_, fun idx fv rows1 pre post rows2 => ?_,
    fun cur => ?_, fun idx fv => rfl⟩
  · rw [parse_content_all]
    show (match joinCells (collectAllCols (rows.map (fun r => r.map some))) with
      | Except.ok l => Except.ok (some (String.intercalate "/" l))
      | Except.error _ => Except.error ()) = _
    rw [collectAllCols_all_some, joinCells_map_some]
  · rw [parse_content_all]
    show (match joinCells (collectAllCols
        (rows1.map (fun r => r.map some) ++ (pre.map some ++ none :: post) :: rows2)) with
      | Except.ok l => Except.ok (some (String.intercalate "/" l))
      | Except.error _ => Except.error ()) = _
    have hsplit : collectAllCols
        (rows1.map (fun r => r.map some) ++ (pre.map some ++ none :: post) :: rows2) =
        (rows1.flatten.map some ++ pre.map some) ++ none :: (post ++ collectAllCols rows2) := by
      rw [collectAllCols_append, collectAllCols_all_some]
      simp only [collectAllCols]
      simp [List.append_assoc]
    rw [hsplit, joinCells_append_none]
  · rw [parse_content_all]
    cases h : joinCells (collectAllCols cur.rows) <;> simp [h]

/-- C6 (counterexample): when the display-name stage and all `_data`
candidates fail and an aggregate-all candidate succeeds over an empty
result set, `_handle_downloads_documents` returns the empty string, not
null — exhausting all stages does not always yield null. -/
theorem downloads_exhausted_empty_string_cex :
    handle_downloads_documents ⟨"/dl", QueryOutcome.err,
        [QueryOutcome.err, QueryOutcome.err, QueryOutcome.err],
        [QueryOutcome.ok (some ""), QueryOutcome.err, QueryOutcome.err]⟩ = some "" ∧
    handle_downloads_documents ⟨"/dl", QueryOutcome.err,
        [QueryOutcome.err, QueryOutcome.err, QueryOutcome.err],
        [QueryOutcome.ok (some ""), QueryOutcome.err, QueryOutcome.err]⟩ ≠ none := by
  decide

/-- C6 (amended): the downloads resolution proceeds display-name stage
first (a successful lookup is joined under the public downloads root and
returned), then the `_data` candidates in order, then aggregate-all mode;
a provider error on a candidate is caught and the loop continues; an
empty candidate result does not mask a later candidate's value; when
every stage errors or returns null the result is null (but a stage that
succeeds with an empty string leaves the empty string, see the
counterexample). -/
theorem downloads_staged_resolution_amended :
    (∀ dir p q1 q2,
      handle_downloads_documents ⟨dir, QueryOutcome.ok (some p), q1, q2⟩ =
        some (pjoin dir p)) ∧
    (∀ dir q2,
      handle_downloads_documents ⟨dir, QueryOutcome.ok none,
          [QueryOutcome.ok (some "p1"), QueryOutcome.err, QueryOutcome.err], q2⟩ =
        some "p1") ∧
    (∀ dir q2,
      handle_downloads_documents ⟨dir, QueryOutcome.err,
          [QueryOutcome.err, QueryOutcome.ok (some ""),
           QueryOutcome.ok (some "data/foo.txt")], q2⟩ = some "data/foo.txt") ∧
    (∀ os, tryLoop (QueryOutcome.err :: os) none = tryLoop os none) ∧
    (∀ dir,
      handle_downloads_documents ⟨dir, QueryOutcome.err,
          [QueryOutcome.err, QueryOutcome.err, QueryOutcome.err],
          [QueryOutcome.err, QueryOutcome.err, QueryOutcome.err]⟩ = none) := by
  exact ⟨fun dir p q1 q2 => rfl, fun dir q2 => rfl, fun dir q2 => rfl,
    fun os => rfl, fun dir => rfl⟩

/-- C7 (confirmed): for a content-scheme locator of unrecognized
authority, the `['_data']` query with the bare filter argument always
comes first; the wrapped retry is issued exactly when that first query
raised a provider error; and the `['_display_name']` query against the
original locator is issued exactly once, exactly when the `_data` stage
did not produce a non-empty path. -/
theorem generic_content_query_trace (env : ContentEnv) :
    (resolve_uri_content env).2 =
      [QueryCall.dataUnwrapped]
        ++ (if isErr env.unwrapped then [QueryCall.dataWrapped] else [])
        ++ (if dataResultTruthy env then [] else [QueryCall.displayOriginal]) := by
  rcases env with ⟨u, w, d⟩
  cases u with
  | ok p =>
      cases htp : truthy p with
      | false => cases d <;> simp [resolve_uri_content, isErr, dataResultTruthy, htp]
      | true => simp [resolve_uri_content, isErr, dataResultTruthy, htp]
  | err =>
      cases w with
      | ok p =>
          cases htp : truthy p with
          | false => cases d <;> simp [resolve_uri_content, isErr, dataResultTruthy, htp]
          | true => simp [resolve_uri_content, isErr, dataResultTruthy, htp]
      | err => simp [resolve_uri_content, isErr, dataResultTruthy]

end AndroidFileChooser

namespace AndroidFileChooser

/-- C4 (confirmed): a delivery whose data is null, whose result code is
not `RESULT_OK`, or whose request code is not this instance's
`select_code` is dropped: the state is unchanged (no registration
created or removed), no resolution runs, and no callback is invoked. -/
theorem dispatch_noop_on_foreign_or_failed (api : Nat) (dir : String)
    (st : ChooserState) (ev : ResultEvent)
    (h : ev.hasData = false ∨ ev.resultOk = false ∨ ev.requestCode ≠ st.selectCode) :
    on_activity_result api dir st ev = (st, HandlerOutcome.ret) := by
  unfold on_activity_result
  rcases h with h | h | h
  · simp [h]
  · simp [h]
  · by_cases h1 : ev.hasData = true <;> by_cases h2 : ev.resultOk = true <;>
      simp [h1, h2, h]

/-- C4 witness: a concrete foreign delivery (request code `999` against
registered code `200000`) is a no-op. -/
theorem dispatch_noop_on_foreign_or_failed_witness :
    (⟨999, true, true, none, Except.ok none, false⟩ : ResultEvent).requestCode ≠
      (⟨200000, 300000, none⟩ : ChooserState).selectCode ∧
    on_activity_result 29 "/c" ⟨200000, 300000, none⟩
        ⟨999, true, true, none, Except.ok none, false⟩ =
      (⟨200000, 300000, none⟩, HandlerOutcome.ret) :=
  ⟨by decide,
   dispatch_noop_on_foreign_or_failed 29 "/c" ⟨200000, 300000, none⟩
     ⟨999, true, true, none, Except.ok none, false⟩ (Or.inr (Or.inr (by decide)))⟩

/-- C1 (counterexample): two identical successful deliveries carrying
the registered request code invoke the callback twice — the handler
never removes the registration, so "at most once" fails. -/
theorem second_delivery_fires_callback_again :
    (runEvents 28 "/c" ⟨200000, 300000, none⟩
        [⟨200000, true, true, none, Except.ok (some "/t/a.txt"), false⟩,
         ⟨200000, true, true, none, Except.ok (some "/t/a.txt"), false⟩]).2 = 2 ∧
    ¬ (runEvents 28 "/c" ⟨200000, 300000, none⟩
        [⟨200000, true, true, none, Except.ok (some "/t/a.txt"), false⟩,
         ⟨200000, true, true, none, Except.ok (some "/t/a.txt"), false⟩]).2 ≤ 1 := by
  decide

/-- Dispatch never changes the registered request codes. -/
theorem on_activity_result_codes (api : Nat) (dir : String)
    (st : ChooserState) (ev : ResultEvent) :
    (on_activity_result api dir st ev).1.selectCode = st.selectCode ∧
    (on_activity_result api dir st ev).1.saveCode = st.saveCode := by
  unfold on_activity_result
  repeat' split
  all_goals simp

/-- The handler outcome depends on the stored state only through
`select_code`. -/
theorem on_activity_result_outcome_code (api : Nat) (dir : String)
    (st₁ st₂ : ChooserState) (ev : ResultEvent)
    (h : st₁.selectCode = st₂.selectCode) :
    (on_activity_result api dir st₁ ev).2 = (on_activity_result api dir st₂ ev).2 := by
  unfold on_activity_result
  rw [h]
  by_cases h1 : ev.hasData = true <;> by_cases h2 : ev.resultOk = true <;>
    by_cases h3 : ev.requestCode = st₂.selectCode <;> simp [h1, h2, h3]
  cases hbs : buildSelection ev with
  | error e => simp
  | ok sel =>
      by_cases h4 : 28 < api <;> simp [h4]
      cases sel with
      | nil => simp
      | cons e rest =>
          cases hb : entryBasename e with
          | error u => simp [hb]
          | ok fn => by_cases h5 : ev.copyFails = true <;> simp [hb, h5]

/-- C1 (amended): dispatching a matching successful result does not
remove the operation's registration — the request codes persist, and
redelivering the very same result produces the very same outcome, so a
callback-invoking delivery invokes the callback again on redelivery. -/
theorem registration_persists_across_dispatch (api : Nat) (dir : String)
    (st : ChooserState) (ev : ResultEvent) :
    (on_activity_result api dir st ev).1.selectCode = st.selectCode ∧
    (on_activity_result api dir st ev).1.saveCode = st.saveCode ∧
    (on_activity_result api dir (on_activity_result api dir st ev).1 ev).2 =
      (on_activity_result api dir st ev).2 := by
  refine ⟨(on_activity_result_codes api dir st ev).1,
    (on_activity_result_codes api dir st ev).2, ?_⟩
  exact on_activity_result_outcome_code api dir _ st ev
    (on_activity_result_codes api dir st ev).1

end AndroidFileChooser

namespace AndroidFileChooser

/-- C2 (counterexample): `api_version = 29`, two items both resolving to
paths — the callback receives the one-element list holding only the
cache copy of the first item, not a two-element list keeping the second
item's directly-resolved path. -/
theorem scoped_storage_two_item_payload_cex :
    (on_activity_result 29 "/cache" ⟨200000, 300000, none⟩
        ⟨200000, true, true,
          some [Except.ok (some "/a/x.txt"), Except.ok (some "/b/y.txt")],
          Except.ok (some "/a/x.txt"), false⟩).2 =
      HandlerOutcome.callback [SelEntry.str "/cache/FromSharedStorage/x.txt"] ∧
    (on_activity_result 29 "/cache" ⟨200000, 300000, none⟩
        ⟨200000, true, true,
          some [Except.ok (some "/a/x.txt"), Except.ok (some "/b/y.txt")],
          Except.ok (some "/a/x.txt"), false⟩).2 ≠
      HandlerOutcome.callback
        [SelEntry.str "/cache/FromSharedStorage/x.txt", SelEntry.str "/b/y.txt"] := by
  decide

/-- C2 (amended): above the scoped-storage threshold, a successfully
resolved selection whose first entry is the path `s` makes the callback
receive the single-element list `[cache_dir/FromSharedStorage/basename(s)]`;
the full resolved list (including every later item) is stored only in
`self.selection` and is not delivered. -/
theorem scoped_storage_singleton_payload (api : Nat) (dir : String)
    (st : ChooserState) (ev : ResultEvent) (s : String) (rest : List SelEntry)
    (hapi : 28 < api) (hdata : ev.hasData = true) (hok : ev.resultOk = true)
    (hcode : ev.requestCode = st.selectCode) (hcopy : ev.copyFails = false)
    (hsel : buildSelection ev = Except.ok (SelEntry.str s :: rest)) :
    on_activity_result api dir st ev =
      ({ st with selection := some (SelEntry.str s :: rest) },
       HandlerOutcome.callback
         [SelEntry.str (pjoin (pjoin dir "FromSharedStorage") (basenameStr s))]) := by
  unfold on_activity_result
  simp [hdata, hok, hcode, hsel, hapi, entryBasename, hcopy]

/-- C2 witness: the amended statement at the concrete two-item input of
the counterexample. -/
theorem scoped_storage_singleton_payload_witness :
    (28 : Nat) < 29 ∧
    (⟨200000, true, true,
        some [Except.ok (some "/a/x.txt"), Except.ok (some "/b/y.txt")],
        Except.ok (some "/a/x.txt"), false⟩ : ResultEvent).copyFails = false ∧
    buildSelection ⟨200000, true, true,
        some [Except.ok (some "/a/x.txt"), Except.ok (some "/b/y.txt")],
        Except.ok (some "/a/x.txt"), false⟩ =
      Except.ok [SelEntry.str "/a/x.txt", SelEntry.str "/b/y.txt"] ∧
    on_activity_result 29 "/cache" ⟨200000, 300000, none⟩
        ⟨200000, true, true,
          some [Except.ok (some "/a/x.txt"), Except.ok (some "/b/y.txt")],
          Except.ok (some "/a/x.txt"), false⟩ =
      (⟨200000, 300000, some [SelEntry.str "/a/x.txt", SelEntry.str "/b/y.txt"]⟩,
       HandlerOutcome.callback
         [SelEntry.str (pjoin (pjoin "/cache" "FromSharedStorage")
           (basenameStr "/a/x.txt"))]) :=
  ⟨by decide, rfl, by decide,
   scoped_storage_singleton_payload 29 "/cache" ⟨200000, 300000, none⟩
     ⟨200000, true, true,
       some [Except.ok (some "/a/x.txt"), Except.ok (some "/b/y.txt")],
       Except.ok (some "/a/x.txt"), false⟩
     "/a/x.txt" [SelEntry.str "/b/y.txt"]
     (by decide) rfl rfl rfl rfl (by decide)⟩

/-- C3 (counterexample): resolving `[a, b, c]` where `b` raises does not
yield `[path(a), null, path(c)]` — the loop is aborted and the whole
selection is replaced by the one-element fallback resolution of
`data.getData()`. -/
theorem multi_item_exception_aborts_cex :
    buildMulti [Except.ok (some "a"), Except.error (), Except.ok (some "c")]
        (Except.ok (some "fb")) = Except.ok [SelEntry.str "fb"] ∧
    (Except.ok [SelEntry.str "fb"] : Except Unit (List SelEntry)) ≠
      Except.ok [SelEntry.str "a", SelEntry.null, SelEntry.str "c"] := by
  decide

/-- When every item resolution returns (raises nothing), the loop keeps
one `entryOf` slot per item, in order. -/
theorem buildMultiAux_map_ok (rs : List (Option String)) :
    buildMultiAux (rs.map Except.ok) = MultiRes.items (rs.map entryOf) := by
  induction rs with
  | nil => rfl
  | cons r rs ih => simp [buildMultiAux, ih]

/-- The first raising item aborts the loop, whatever came before or
comes after. -/
theorem buildMultiAux_abort (pre : List (Option String)) (post : List ROutcome) :
    buildMultiAux (pre.map Except.ok ++ Except.error () :: post) = MultiRes.aborted := by
  induction pre with
  | nil => rfl
  | cons r rs ih => simp [buildMultiAux, ih]

/-- C3 (amended): when no item's resolution raises, the selection keeps
exactly one slot per input item in input order, where a resolution that
returned null or the empty string leaves the empty-list placeholder
(not null); when some item's resolution raises, the whole selection is
replaced by the single-element fallback resolution of `data.getData()`. -/
theorem multi_item_resolution_amended :
    (∀ (rs : List (Option String)) (fb : ROutcome),
      buildMulti (rs.map Except.ok) fb = Except.ok (rs.map entryOf)) ∧
    (∀ rs : List (Option String), (rs.map entryOf).length = rs.length) ∧
    (∀ (pre : List (Option String)) (post : List ROutcome) (fb : ROutcome),
      buildMulti (pre.map Except.ok ++ Except.error () :: post) fb = fallbackSel fb) ∧
    entryOf none = SelEntry.emptyList ∧ entryOf (some "") = SelEntry.emptyList := by
  refine ⟨fun rs fb => ?_, fun rs => List.length_map rs entryOf,
    fun pre post fb => ?_, rfl, rfl⟩
  · simp [buildMulti, buildMultiAux_map_ok]
  · simp [buildMulti, buildMultiAux_abort]

/-- C10 (confirmed): above the scoped-storage threshold, a delivery
whose resolved selection starts with the null placeholder makes the
handler raise while computing `basename(selection[0])`: the callback is
never invoked and no list containing the null is delivered (it is only
stored in `self.selection`). -/
theorem scoped_storage_null_first_raises (api : Nat) (dir : String)
    (st : ChooserState) (ev : ResultEvent) (rest : List SelEntry)
    (hapi : 28 < api) (hdata : ev.hasData = true) (hok : ev.resultOk = true)
    (hcode : ev.requestCode = st.selectCode)
    (hsel : buildSelection ev = Except.ok (SelEntry.null :: rest)) :
    on_activity_result api dir st ev =
      ({ st with selection := some (SelEntry.null :: rest) },
       HandlerOutcome.raised) := by
  unfold on_activity_result
  simp [hdata, hok, hcode, hsel, hapi, entryBasename]

/-- C10 witness: a single-item result whose resolution returned `None`,
delivered on api 29, raises and fires no callback. -/
theorem scoped_storage_null_first_raises_witness :
    (28 : Nat) < 29 ∧
    buildSelection ⟨200000, true, true, none, Except.ok none, false⟩ =
      Except.ok [SelEntry.null] ∧
    on_activity_result 29 "/c" ⟨200000, 300000, none⟩
        ⟨200000, true, true, none, Except.ok none, false⟩ =
      (⟨200000, 300000, some [SelEntry.null]⟩, HandlerOutcome.raised) :=
  ⟨by decide, by decide,
   scoped_storage_null_first_raises 29 "/c" ⟨200000, 300000, none⟩
     ⟨200000, true, true, none, Except.ok none, false⟩ []
     (by decide) rfl rfl rfl (by decide)⟩

/-- C9 (confirmed): for a document id of the form `type:name`, the
resolution is `join(root, name)` with no provider query, where the root
is the primary storage root for type `primary`, the primary root's
documents subdirectory for type `home`, the SD-card root for a type
occurring in a present SD-card root, and the primary storage root
otherwise. -/
theorem external_documents_root_selection (env : ExtEnv) (fileId t n : String)
    (hsplit : splitStr ':' fileId = [t, n]) :
    (t = "primary" →
      handle_external_documents env fileId = Except.ok (pjoin env.primaryStorage n)) ∧
    (t = "home" →
      handle_external_documents env fileId =
        Except.ok (pjoin (pjoin env.primaryStorage env.documentsDir) n)) ∧
    (t ≠ "primary" → t ≠ "home" →
      (truthy env.sdcardStorage && strContains (env.sdcardStorage.getD "") t) = true →
      handle_external_documents env fileId =
        Except.ok (pjoin (env.sdcardStorage.getD "") n)) ∧
    (t ≠ "primary" → t ≠ "home" →
      (truthy env.sdcardStorage && strContains (env.sdcardStorage.getD "") t) = false →
      handle_external_documents env fileId = Except.ok (pjoin env.primaryStorage n)) := by
  refine ⟨fun h1 => ?_, fun h2 => ?_, fun h1 h2 h3 => ?_, fun h1 h2 h3 => ?_⟩ <;>
    unfold handle_external_documents <;> rw [hsplit] <;> simp [*]

/-- C9 witness: `primary:x.txt` resolves under the primary storage
root. -/
theorem external_documents_root_selection_witness :
    splitStr ':' "primary:x.txt" = ["primary", "x.txt"] ∧
    handle_external_documents
        ⟨"/emulated/0", some "/storage/AB12-34CD", "Documents"⟩ "primary:x.txt" =
      Except.ok (pjoin "/emulated/0" "x.txt") :=
  ⟨by decide,
   (external_documents_root_selection
     ⟨"/emulated/0", some "/storage/AB12-34CD", "Documents"⟩
     "primary:x.txt" "primary" "x.txt" (by decide)).1 rfl⟩

end AndroidFileChooser

